import Mathlib

/-!
Verification of the TheStreamic RSS aggregator (src/fetch.py and src/fetch_rss.py)
against its natural-language specification.

The Python sources are shallowly embedded below.  Pure string manipulation is
modelled over `List Char` (so that every definition evaluates inside the kernel);
network I/O (HTTP fetches of pages and feeds) is modelled by explicit oracle
parameters of type `String → Option String` / `String → Option Feed`; the
filesystem state touched by `main` is modelled by an explicit `PubState` record.
-/

/-! ## Character-list string primitives

The Python string operations used by the sources (`strip`, `lower`,
`startswith`, `endswith`, `in` (substring), slicing and lexicographic
comparison) are implemented over `List Char` so that all definitions reduce. -/

/-- Whitespace recognizer matching Python `str.strip()` / regex `\s`
(space, tab, newline, carriage return, form feed, vertical tab). -/
def isWsChar (c : Char) : Bool :=
  decide (c = ' ') || decide (c.toNat = 9) || decide (c.toNat = 10) ||
  decide (c.toNat = 13) || decide (c.toNat = 12) || decide (c.toNat = 11)

/-- Model of Python `str.strip()`: drop whitespace from both ends. -/
def stripChars (cs : List Char) : List Char :=
  ((cs.dropWhile isWsChar).reverse.dropWhile isWsChar).reverse

/-- Model of Python `str.strip()` on `String`. -/
def pyStrip (s : String) : String := String.mk (stripChars s.data)

/-- Model of Python `str.lower()` (ASCII case folding suffices for the data
handled by the aggregator). -/
def pyLower (s : String) : String := String.mk (s.data.map Char.toLower)

/-- Check that the first list is a prefix of the second. -/
def isPrefixChars : List Char → List Char → Bool
  | [], _ => true
  | _ :: _, [] => false
  | a :: as, b :: bs => decide (a = b) && isPrefixChars as bs

/-- Model of Python `s.startswith(pre)`. -/
def pyStartsWith (s pre : String) : Bool := isPrefixChars pre.data s.data

/-- Model of Python `s.endswith(suf)`. -/
def pyEndsWith (s suf : String) : Bool :=
  isPrefixChars suf.data.reverse s.data.reverse

/-- Substring test: model of Python `needle in hay`. -/
def isSubstrChars (needle : List Char) : List Char → Bool
  | [] => needle.isEmpty
  | c :: rest => isPrefixChars needle (c :: rest) || isSubstrChars needle rest

/-- Model of Python `needle in hay` on `String`. -/
def substrB (needle hay : String) : Bool := isSubstrChars needle.data hay.data

/-- Membership of a string in a list of strings: model of Python `x in xs`
(used both for lists and for sets of strings, whose membership semantics
coincide). -/
def containsStr : List String → String → Bool
  | [], _ => false
  | s :: rest, g => decide (s = g) || containsStr rest g

/-- Lexicographic strict comparison of character lists by code point: model of
Python string `<`. -/
def lexLt : List Char → List Char → Bool
  | [], [] => false
  | [], _ :: _ => true
  | _ :: _, [] => false
  | a :: as, b :: bs => if a = b then lexLt as bs else decide (a.toNat < b.toNat)

/-- Association-list lookup with default 0: model of Python `d.get(k, 0)`. -/
def lookupCount : List (String × Nat) → String → Nat
  | [], _ => 0
  | (k, v) :: rest, c => if k = c then v else lookupCount rest c

/-- Increment the count stored for a key, preserving insertion order and
appending a fresh key at the end: model of Python
`d[k] = d.get(k, 0) + 1` on an insertion-ordered dict. -/
def bumpCount : List (String × Nat) → String → List (String × Nat)
  | [], k => [(k, 1)]
  | (k0, v) :: rest, k => if k0 = k then (k0, v + 1) :: rest else (k0, v) :: bumpCount rest k

theorem containsStr_iff (l : List String) (g : String) :
    containsStr l g = true ↔ g ∈ l := by
  induction l with
  | nil => simp [containsStr]
  | cons s rest ih =>
    simp only [containsStr, Bool.or_eq_true, decide_eq_true_eq, ih, List.mem_cons]
    constructor
    · rintro (h | h)
      · exact Or.inl h.symm
      · exact Or.inr h
    · rintro (h | h)
      · exact Or.inl h.symm
      · exact Or.inr h

theorem lookupCount_bumpCount (m : List (String × Nat)) (k c : String) :
    lookupCount (bumpCount m k) c =
      if c = k then lookupCount m c + 1 else lookupCount m c := by
  induction m with
  | nil =>
    by_cases h : c = k
    · subst h
      simp [bumpCount, lookupCount]
    · have h2 : ¬ (k = c) := fun e => h e.symm
      simp [bumpCount, lookupCount, h, h2]
  | cons p rest ih =>
    obtain ⟨k0, v⟩ := p
    by_cases h0 : k0 = k
    · subst h0
      by_cases hc : c = k0
      · subst hc
        simp [bumpCount, lookupCount]
      · have h2 : ¬ (k0 = c) := fun e => hc e.symm
        simp [bumpCount, lookupCount, hc, h2]
    · by_cases hc : k0 = c
      · subst hc
        simp [bumpCount, lookupCount, h0]
      · simp [bumpCount, lookupCount, h0, hc, ih]

theorem lookupCount_exists (m : List (String × Nat)) (c : String)
    (h : lookupCount m c ≠ 0) : ∃ p ∈ m, p.1 = c ∧ p.2 = lookupCount m c := by
  induction m with
  | nil => simp [lookupCount] at h
  | cons p rest ih =>
    obtain ⟨k0, v⟩ := p
    by_cases hk : k0 = c
    · refine ⟨(k0, v), by simp, hk, ?_⟩
      simp [lookupCount, hk]
    · simp only [lookupCount, hk, if_false] at h ⊢
      obtain ⟨q, hq, h1, h2⟩ := ih h
      exact ⟨q, List.mem_cons_of_mem _ hq, h1, h2⟩

namespace FetchPy

/-! ## Configuration constants of src/fetch.py (lines 22-85) -/

/-- Performance setting `MAX_ARTICLE_FETCHES` (src/fetch.py line 26). -/
def MAX_ARTICLE_FETCHES : Nat := 8

/-- Balancing setting `MIN_PER_CATEGORY` (src/fetch.py line 29). -/
def MIN_PER_CATEGORY : Nat := 18

/-- Balancing setting `MIN_REQUIRED_EACH` (src/fetch.py line 30). -/
def MIN_REQUIRED_EACH : Nat := 3

/-- Balancing setting `MAX_NEWS_ITEMS` (src/fetch.py line 31). -/
def MAX_NEWS_ITEMS : Nat := 300

/-- Balancing setting `MAX_ITEMS_PER_SOURCE` (src/fetch.py line 32). -/
def MAX_ITEMS_PER_SOURCE : Nat := 8

/-- Setting `MAX_ITEMS_LOW_PRIORITY` (src/fetch.py line 85). -/
def MAX_ITEMS_LOW_PRIORITY : Nat := 3

/-- The `DIRECT_FEEDS` allow-list of src/fetch.py (lines 35-77). -/
def DIRECT_FEEDS : List String := [
  "https://www.streamingmediablog.com/feed",
  "https://www.dacast.com/feed",
  "https://onthefly.stream/blog/feed",
  "https://yololiv.com/blog/feed",
  "https://www.broadcastnow.co.uk/full-rss/",
  "https://www.haivision.com/blog/feed/",
  "https://bitmovin.com/blog/feed/",
  "https://www.akamai.com/blog/feed.xml",
  "https://www.limelight.com/resources/blog/feed/",
  "https://www.fastly.com/blog/feed",
  "https://www.grassvalley.com/news/rss/",
  "https://www.pebble.tv/feed/",
  "https://www.playboxtechnology.com/feed/",
  "https://chesa.com/feed",
  "https://cloudinary.com/blog/feed",
  "https://www.studionetworksolutions.com/feed",
  "https://www.signiant.com/blog/feed/",
  "https://openrss.org/https://scalelogicinc.com/blog/protecting-valuable-media-assets/",
  "https://openrss.org/https://qsan.io/solutions/media-production/",
  "https://openrss.org/https://www.keycodemedia.com/capabilities/media-shared-storage-cloud-storage/",
  "https://www.provideocoalition.com/feed/",
  "https://nofilmschool.com/rss",
  "https://www.newsshooter.com/feed/",
  "https://www.bhphotovideo.com/explora/feed",
  "https://techcrunch.com/feed",
  "https://www.engadget.com/rss.xml",
  "https://www.wired.com/feed/rss",
  "https://www.inbroadcast.com/rss.xml",
  "https://www.imaginecommunications.com/news/rss.xml",
  "https://www.tvbeurope.com/feed/",
  "https://www.digitaltvnews.net/?feed=rss2",
  "https://www.digitaltveurope.com/feed/",
  "https://www.rapidtvnews.com/feed/",
  "https://www.sportsvideo.org/feed/"
]


/-- The `LOW_PRIORITY_FEEDS` list of src/fetch.py (lines 80-84). -/
def LOW_PRIORITY_FEEDS : List String := [
  "https://techcrunch.com/feed",
  "https://www.engadget.com/rss.xml",
  "https://www.wired.com/feed/rss"
]


/-- The `FEED_GROUPS` configuration of src/fetch.py (lines 88-227): the mapping
from category name to its feed URLs, as an insertion-ordered association
list. -/
def FEED_GROUPS : List (String × List String) := [
  ("newsroom", [
    "https://www.newscaststudio.com/feed/",
    "https://www.tvtechnology.com/news/rss.xml",
    "https://www.broadcastbeat.com/feed/",
    "https://www.svgeurope.org/feed/",
    "https://www.sportsvideo.org/feed/",
    "https://www.tvbeurope.com/feed/",
    "https://www.digitaltvnews.net/?feed=rss2",
    "https://www.digitaltveurope.com/feed/",
    "https://www.rapidtvnews.com/feed/",
    "https://www.broadcastnow.co.uk/full-rss/",
    "https://www.thebroadcastbridge.com/rss/news",
    "https://www.ibc.org/rss",
    "https://www.nab.org/nabpubs/news/rss.xml"]),
  ("playout", [
    "https://www.inbroadcast.com/rss.xml",
    "https://www.tvtechnology.com/playout/rss.xml",
    "https://www.rossvideo.com/news/feed/",
    "https://www.harmonicinc.com/insights/blog/rss.xml",
    "https://www.evertz.com/news/rss",
    "https://www.imaginecommunications.com/news/rss.xml",
    "https://www.grassvalley.com/news/rss/",
    "https://www.pebble.tv/feed/",
    "https://www.playboxtechnology.com/feed/",
    "https://www.thebroadcastbridge.com/rss/playout",
    "https://www.tvtechnology.com/production/rss.xml",
    "https://www.newscaststudio.com/category/channel-in-a-box/feed/"]),
  ("infrastructure", [
    "https://www.thebroadcastbridge.com/rss/infrastructure",
    "https://www.tvtechnology.com/infrastructure/rss.xml",
    "https://www.thebroadcastbridge.com/rss/ip-network",
    "https://www.tvtechnology.com/networking/rss.xml",
    "https://chesa.com/feed",
    "https://cloudinary.com/blog/feed",
    "https://www.signiant.com/blog/feed/",
    "https://www.studionetworksolutions.com/feed",
    "https://openrss.org/https://scalelogicinc.com/blog/protecting-valuable-media-assets/",
    "https://openrss.org/https://qsan.io/solutions/media-production/",
    "https://openrss.org/https://www.keycodemedia.com/capabilities/media-shared-storage-cloud-storage/",
    "https://www.thebroadcastbridge.com/rss/test-measurement",
    "https://www.tvtechnology.com/test-measurement/rss.xml"]),
  ("graphics", [
    "https://www.thebroadcastbridge.com/rss/graphics",
    "https://www.tvtechnology.com/graphics/rss.xml",
    "https://www.vizrt.com/news/rss",
    "https://routing.vizrt.com/rss",
    "https://motionographer.com/feed/",
    "https://www.cgchannel.com/feed/",
    "https://realtimevfx.com/latest.rss",
    "https://www.newscaststudio.com/category/virtual-set/feed/",
    "https://www.broadcastbeat.com/category/graphics/feed/",
    "https://www.svgeurope.org/feed/",
    "https://www.sportsvideo.org/feed/"]),
  ("cloud", [
    "https://www.thebroadcastbridge.com/rss/cloud",
    "https://www.tvtechnology.com/cloud/rss.xml",
    "https://aws.amazon.com/blogs/media/feed/",
    "https://azure.microsoft.com/en-us/blog/topics/media/feed/",
    "https://cloud.google.com/blog/topics/media-entertainment/rss/",
    "https://www.akamai.com/blog/feed.xml",
    "https://www.fastly.com/blog/feed",
    "https://blog.frame.io/feed/",
    "https://bitmovin.com/blog/feed/",
    "https://www.thebroadcastbridge.com/rss/remote-production",
    "https://www.tvtechnology.com/remote-production/rss.xml"]),
  ("streaming", [
    "https://www.thebroadcastbridge.com/rss/streaming",
    "https://www.tvtechnology.com/streaming/rss.xml",
    "https://www.streamingmediablog.com/feed",
    "https://www.broadcastnow.co.uk/full-rss/",
    "https://www.haivision.com/blog/feed/",
    "https://bitmovin.com/blog/feed/",
    "https://www.thebroadcastbridge.com/rss/ott",
    "https://www.tvtechnology.com/ott/rss.xml",
    "https://www.dacast.com/feed",
    "https://onthefly.stream/blog/feed",
    "https://yololiv.com/blog/feed",
    "https://www.akamai.com/blog/feed.xml",
    "https://www.tvbeurope.com/feed/",
    "https://www.rapidtvnews.com/feed/",
    "https://techcrunch.com/feed",
    "https://www.engadget.com/rss.xml",
    "https://www.wired.com/feed/rss"]),
  ("ai-post-production", [
    "https://www.thebroadcastbridge.com/rss/ai",
    "https://www.tvtechnology.com/ai/rss.xml",
    "https://www.thebroadcastbridge.com/rss/audio",
    "https://www.tvtechnology.com/audio/rss.xml",
    "https://motionographer.com/feed/",
    "https://blog.frame.io/feed/",
    "https://www.provideocoalition.com/feed/",
    "https://nofilmschool.com/rss",
    "https://www.newsshooter.com/feed/",
    "https://www.bhphotovideo.com/explora/feed",
    "https://www.broadcastbeat.com/category/post-production/feed/",
    "https://www.tvtechnology.com/post-production/rss.xml",
    "https://www.thebroadcastbridge.com/rss/post-production",
    "https://www.thebroadcastbridge.com/rss/machine-learning",
    "https://www.tvbeurope.com/feed/"])
]
/-! ## Data model of src/fetch.py -/

/-- Canonical item record built by `process_entries` (src/fetch.py lines
404-414): the dict with keys `title`, `link`, `guid`, `category`, `source`,
`image`, `pubDate`, `timestamp`, `_low_priority`.  `image` is `none` when the
Python value is `None`. -/
structure Item where
  title : String
  link : String
  guid : String
  category : String
  source : String
  image : Option String
  pubDate : String
  timestamp : Nat
  lowPriority : Bool
deriving DecidableEq

/-! ## Deduplication (src/fetch.py lines 565-577) -/

/-- Loop body of `deduplicate_by_guid` (src/fetch.py lines 570-574): walk the
list with the `seen_guids` set, keeping an item only when its guid is truthy
(non-empty) and not seen before. -/
def dedupGuidAux (seen : List String) : List Item → List Item
  | [] => []
  | it :: rest =>
    if it.guid ≠ "" ∧ containsStr seen it.guid = false then
      it :: dedupGuidAux (it.guid :: seen) rest
    else
      dedupGuidAux seen rest

/-- Model of `deduplicate_by_guid` (src/fetch.py lines 565-577): remove
duplicate articles by GUID, dropping items whose guid is empty. -/
def deduplicate_by_guid (items : List Item) : List Item := dedupGuidAux [] items

/-! ## Validation (src/fetch.py lines 544-563) -/

/-- The `category_counts` dict of `validate_news_data` (src/fetch.py lines
546-550), built by iterating over the items and bumping the count of each
item's category. -/
def categoryCounts (items : List Item) : List (String × Nat) :=
  items.foldl (fun m it => bumpCount m it.category) []

/-- Model of `validate_news_data` (src/fetch.py lines 544-563): compute the
per-category counts of the items and succeed exactly when the list
`failed_categories` of categories whose count is below `MIN_REQUIRED_EACH` is
empty. -/
def validate_news_data (items : List Item) : Bool :=
  ((categoryCounts items).filter (fun p => decide (p.2 < MIN_REQUIRED_EACH))).isEmpty

/-! ## Category balancing (src/fetch.py lines 579-613) -/

/-- Insertion step of the `category_items` dict of `balance_categories`
(src/fetch.py lines 585-589): append the item to the bucket of its category,
creating the bucket at the end on first appearance (Python dicts preserve
insertion order). -/
def addToGroups : List (String × List Item) → Item → List (String × List Item)
  | [], it => [(it.category, [it])]
  | (k, v) :: rest, it =>
    if k = it.category then (k, v ++ [it]) :: rest else (k, v) :: addToGroups rest it

/-- The `category_items` grouping of `balance_categories` (src/fetch.py lines
583-589). -/
def groupByCategory (items : List Item) : List (String × List Item) :=
  items.foldl addToGroups []

/-- Descending comparison used by the `pubDate` sorts of `balance_categories`
(src/fetch.py lines 591-595 and 611): `a` strictly more recent than `b`. -/
def pubDateGt (a b : Item) : Bool := lexLt b.pubDate.data a.pubDate.data

/-- Stable insertion into a descending-sorted list: the new element goes after
every strictly greater element and before equal ones, matching the
tie-stability of Python `list.sort(key=..., reverse=True)`. -/
def insertDesc (x : Item) : List Item → List Item
  | [] => [x]
  | y :: ys => if pubDateGt y x then y :: insertDesc x ys else x :: y :: ys

/-- Model of `items.sort(key=lambda x: x.get('pubDate', ''), reverse=True)`
(src/fetch.py lines 591-595 and 611): stable sort, most recent first. -/
def sortByDateDesc : List Item → List Item
  | [] => []
  | x :: xs => insertDesc x (sortByDateDesc xs)

/-- Per-source capping loop of `balance_categories` (src/fetch.py lines
600-608): keep an item while its source's running count is below the limit
(`MAX_ITEMS_LOW_PRIORITY` for low-priority items, `MAX_ITEMS_PER_SOURCE`
otherwise), threading the `source_counts` dict. -/
def capSources (counts : List (String × Nat)) : List Item → List Item
  | [] => []
  | it :: rest =>
    if lookupCount counts it.source <
        (if it.lowPriority then MAX_ITEMS_LOW_PRIORITY else MAX_ITEMS_PER_SOURCE) then
      it :: capSources (bumpCount counts it.source) rest
    else
      capSources counts rest

/-- Model of `balance_categories` (src/fetch.py lines 579-613): deduplicate,
group by category, sort each bucket by `pubDate` descending, apply the
per-source cap and the `MIN_PER_CATEGORY` truncation inside each bucket,
concatenate, sort the result by `pubDate` descending and truncate to
`MAX_NEWS_ITEMS`. -/
def balance_categories (all_items0 : List Item) : List Item :=
  let all_items := deduplicate_by_guid all_items0
  let groups := groupByCategory all_items
  let sortedGroups := groups.map (fun p => (p.1, sortByDateDesc p.2))
  let balanced :=
    (sortedGroups.map (fun p => (capSources [] p.2).take MIN_PER_CATEGORY)).flatten
  (sortByDateDesc balanced).take MAX_NEWS_ITEMS

/-! ## Publish step of `main` (src/fetch.py lines 624-683) -/

/-- Durable state touched by `main`: the contents of `data/news.json`
(`OUTPUT_FILE`) and `data/archive.json` (`ARCHIVE_FILE`); `none` means the
file does not exist. -/
structure PubState where
  output : Option (List Item)
  archive : Option (List Item)
deriving DecidableEq

/-- Model of the tail of `main` (src/fetch.py lines 655-683), given the
collected `all_items`: return unchanged when nothing was collected; otherwise
balance and validate, and then (a) when the output file exists and validation
passed, move it to the archive slot (deleting the previous archive) and save
the balanced items, (b) when the output file exists and validation failed,
return with no write, (c) when no output file exists, save the balanced items
(even if validation failed), leaving the archive alone. -/
def mainPublish (st : PubState) (all_items : List Item) : PubState :=
  if all_items.isEmpty then st
  else
    let balanced := balance_categories all_items
    let ok := validate_news_data balanced
    match st.output with
    | some prev =>
      if ok then { output := some balanced, archive := some prev } else st
    | none => { output := some balanced, archive := st.archive }

/-! ## Lemmas about deduplication -/

theorem dedup_mem_spec (l : List Item) :
    ∀ (seen : List String) (x : Item), x ∈ dedupGuidAux seen l →
      x.guid ≠ "" ∧ ¬ x.guid ∈ seen := by
  induction l with
  | nil => intro seen x hx; simp [dedupGuidAux] at hx
  | cons it rest ih =>
    intro seen x hx
    by_cases h : it.guid ≠ "" ∧ containsStr seen it.guid = false
    · rw [dedupGuidAux, if_pos h] at hx
      rcases List.mem_cons.mp hx with h1 | h1
      · subst h1
        refine ⟨h.1, ?_⟩
        rw [← containsStr_iff seen x.guid]
        simp [h.2]
      · obtain ⟨hg, hs⟩ := ih _ x h1
        exact ⟨hg, fun hm => hs (List.mem_cons_of_mem _ hm)⟩
    · rw [dedupGuidAux, if_neg h] at hx
      exact ih _ x hx

theorem dedup_pairwise (l : List Item) :
    ∀ seen : List String,
      (dedupGuidAux seen l).Pairwise (fun a b => a.guid ≠ b.guid) := by
  induction l with
  | nil => intro seen; simp [dedupGuidAux]
  | cons it rest ih =>
    intro seen
    by_cases h : it.guid ≠ "" ∧ containsStr seen it.guid = false
    · rw [dedupGuidAux, if_pos h]
      refine List.Pairwise.cons ?_ (ih _)
      intro y hy heq
      exact (dedup_mem_spec rest _ y hy).2 (heq ▸ List.mem_cons_self _ _)
    · rw [dedupGuidAux, if_neg h]
      exact ih _

theorem dedup_fixed (m : List Item) :
    ∀ seen : List String,
      (∀ x ∈ m, x.guid ≠ "" ∧ ¬ x.guid ∈ seen) →
      m.Pairwise (fun a b => a.guid ≠ b.guid) →
      dedupGuidAux seen m = m := by
  induction m with
  | nil => intro seen _ _; rfl
  | cons it rest ih =>
    intro seen hall hpw
    obtain ⟨hg, hs⟩ := hall it (List.mem_cons_self _ _)
    have hc : containsStr seen it.guid = false := by
      rw [Bool.eq_false_iff]
      intro hcc
      exact hs ((containsStr_iff _ _).mp hcc)
    rw [dedupGuidAux, if_pos ⟨hg, hc⟩]
    congr 1
    refine ih _ ?_ hpw.of_cons
    intro x hx
    refine ⟨(hall x (List.mem_cons_of_mem _ hx)).1, ?_⟩
    intro hmem
    rcases List.mem_cons.mp hmem with h1 | h1
    · exact (List.rel_of_pairwise_cons hpw hx) h1.symm
    · exact (hall x (List.mem_cons_of_mem _ hx)).2 h1

/-! ## Lemmas about balancing -/

theorem insertDesc_perm (x : Item) (l : List Item) :
    (insertDesc x l).Perm (x :: l) := by
  induction l with
  | nil => simp [insertDesc]
  | cons y ys ih =>
    rw [insertDesc]
    by_cases h : pubDateGt y x = true
    · rw [if_pos h]
      exact (ih.cons y).trans (List.Perm.swap x y ys)
    · rw [if_neg h]

theorem sortByDateDesc_perm (l : List Item) : (sortByDateDesc l).Perm l := by
  induction l with
  | nil => simp [sortByDateDesc]
  | cons x xs ih =>
    exact (insertDesc_perm x (sortByDateDesc xs)).trans (ih.cons x)

theorem capSources_sublist (l : List Item) :
    ∀ counts, (capSources counts l).Sublist l := by
  induction l with
  | nil => intro counts; simp [capSources]
  | cons it rest ih =>
    intro counts
    rw [capSources]
    by_cases h : lookupCount counts it.source <
        (if it.lowPriority = true then MAX_ITEMS_LOW_PRIORITY else MAX_ITEMS_PER_SOURCE)
    · rw [if_pos h]
      exact (ih _).cons₂ it
    · rw [if_neg h]
      exact (ih _).cons it

theorem addToGroups_flatten_perm (it : Item) :
    ∀ g : List (String × List Item),
      (((addToGroups g it).map Prod.snd).flatten).Perm
        ((g.map Prod.snd).flatten ++ [it]) := by
  intro g
  induction g with
  | nil => simp [addToGroups]
  | cons p rest ih =>
    obtain ⟨k, v⟩ := p
    rw [addToGroups]
    by_cases h : k = it.category
    · rw [if_pos h]
      simp only [List.map_cons, List.flatten_cons, List.append_assoc]
      exact List.Perm.append_left v (List.perm_append_comm)
    · rw [if_neg h]
      simp only [List.map_cons, List.flatten_cons, List.append_assoc]
      exact List.Perm.append_left v ih

theorem foldl_addToGroups_flatten_perm (items : List Item) :
    ∀ g : List (String × List Item),
      (((items.foldl addToGroups g).map Prod.snd).flatten).Perm
        ((g.map Prod.snd).flatten ++ items) := by
  induction items with
  | nil => intro g; simp
  | cons it rest ih =>
    intro g
    rw [List.foldl_cons]
    refine (ih (addToGroups g it)).trans ?_
    refine ((addToGroups_flatten_perm it g).append_right rest).trans ?_
    rw [List.append_assoc]
    exact List.Perm.append_left _ (by simp)

theorem groupByCategory_flatten_perm (items : List Item) :
    (((groupByCategory items).map Prod.snd).flatten).Perm items := by
  have h := foldl_addToGroups_flatten_perm items []
  simpa [groupByCategory] using h

theorem subperm_append_both {α : Type} {l₁ l₂ r₁ r₂ : List α}
    (h₁ : l₁.Subperm l₂) (h₂ : r₁.Subperm r₂) : (l₁ ++ r₁).Subperm (l₂ ++ r₂) := by
  obtain ⟨s₁, hp₁, hs₁⟩ := h₁
  obtain ⟨s₂, hp₂, hs₂⟩ := h₂
  exact ⟨s₁ ++ s₂, hp₁.append hp₂, hs₁.append hs₂⟩

theorem bucket_subperm (v : List Item) :
    ((capSources [] (sortByDateDesc v)).take MIN_PER_CATEGORY).Subperm v := by
  have h1 : ((capSources [] (sortByDateDesc v)).take MIN_PER_CATEGORY).Sublist
      (sortByDateDesc v) :=
    (List.take_sublist _ _).trans (capSources_sublist _ [])
  exact h1.subperm.trans (sortByDateDesc_perm v).subperm

theorem flatten_map_subperm (f : List Item → List Item)
    (hf : ∀ v, (f v).Subperm v) :
    ∀ gs : List (String × List Item),
      ((gs.map (fun p => f p.2)).flatten).Subperm ((gs.map Prod.snd).flatten) := by
  intro gs
  induction gs with
  | nil => simp [List.Subperm.refl]
  | cons p rest ih =>
    simp only [List.map_cons, List.flatten_cons]
    exact subperm_append_both (hf p.2) ih

theorem balance_subperm_dedup (l : List Item) :
    (balance_categories l).Subperm (deduplicate_by_guid l) := by
  rw [balance_categories]
  simp only [List.map_map]
  have hmm : ((groupByCategory (deduplicate_by_guid l)).map
        ((fun p => (capSources [] p.2).take MIN_PER_CATEGORY) ∘
          (fun p => (p.1, sortByDateDesc p.2)))) =
      ((groupByCategory (deduplicate_by_guid l)).map
        (fun p => (capSources [] (sortByDateDesc p.2)).take MIN_PER_CATEGORY)) := by
    simp [Function.comp]
  rw [hmm]
  have h1 := flatten_map_subperm
    (fun v => (capSources [] (sortByDateDesc v)).take MIN_PER_CATEGORY)
    bucket_subperm (groupByCategory (deduplicate_by_guid l))
  have h2 := (groupByCategory_flatten_perm (deduplicate_by_guid l)).subperm
  set balanced := ((groupByCategory (deduplicate_by_guid l)).map
      (fun p => (capSources [] (sortByDateDesc p.2)).take MIN_PER_CATEGORY)).flatten
  have h3 : ((sortByDateDesc balanced).take MAX_NEWS_ITEMS).Subperm balanced :=
    (List.take_sublist _ _).subperm.trans (sortByDateDesc_perm balanced).subperm
  exact h3.trans (h1.trans h2)

/-! ## Counting lemma for validation -/

theorem foldl_bump_lookup (items : List Item) :
    ∀ (m : List (String × Nat)) (c : String),
      lookupCount (items.foldl (fun m it => bumpCount m it.category) m) c =
        lookupCount m c + items.countP (fun it => decide (it.category = c)) := by
  induction items with
  | nil => intro m c; simp
  | cons it rest ih =>
    intro m c
    rw [List.foldl_cons, ih, lookupCount_bumpCount, List.countP_cons]
    by_cases h : it.category = c
    · rw [if_pos h.symm]
      simp [h]
      omega
    · have h2 : ¬ (c = it.category) := fun e => h e.symm
      rw [if_neg h2]
      simp [h]

theorem validate_all_counts (items : List Item)
    (hval : validate_news_data items = true) :
    ∀ p ∈ categoryCounts items, MIN_REQUIRED_EACH ≤ p.2 := by
  intro p hp
  rw [validate_news_data, List.isEmpty_iff, List.filter_eq_nil_iff] at hval
  have := hval p hp
  simp only [decide_eq_true_eq] at this
  omega

/-! ## Concrete items used by witnesses and counterexamples -/

/-- Sample item in category `newsroom`. -/
def itemA : Item :=
  { title := "A", link := "https://example.com/a", guid := "guid-a",
    category := "newsroom", source := "SrcA", image := none,
    pubDate := "2024-01-02T00:00:00+00:00", timestamp := 1, lowPriority := false }

/-- Second sample item in category `newsroom`. -/
def itemB : Item :=
  { title := "B", link := "https://example.com/b", guid := "guid-b",
    category := "newsroom", source := "SrcB", image := none,
    pubDate := "2024-01-01T00:00:00+00:00", timestamp := 1, lowPriority := false }

/-- Third sample item in category `newsroom`. -/
def itemC : Item :=
  { title := "C", link := "https://example.com/c", guid := "guid-c",
    category := "newsroom", source := "SrcC", image := none,
    pubDate := "2024-01-03T00:00:00+00:00", timestamp := 1, lowPriority := false }

/-- Sample item whose guid is empty (it is not a duplicate of anything). -/
def itemNoGuid : Item :=
  { title := "X", link := "https://example.com/x", guid := "",
    category := "newsroom", source := "SrcX", image := none,
    pubDate := "2024-01-04T00:00:00+00:00", timestamp := 1, lowPriority := false }

/-- A previously published dataset used as the pre-existing output file. -/
def prevDataset : List Item := [itemA, itemB, itemC]

/-- Publish-guard state with an existing output file and no archive. -/
def c1state : PubState := { output := some prevDataset, archive := none }

/-! ## Claim C1 -/

/-- Claim C1: if the candidate dataset fails per-category minimum validation
and a previously published dataset file already exists, the run aborts the
publish: the whole durable state (output file and archive file) after the run
is identical to the state before the run; in particular the published file is
unchanged (in the model, file contents are compared as values, which
corresponds to byte-for-byte identity of the serialized file). -/
theorem claim_C1_safe_publish (st : PubState) (all_items prev : List Item)
    (hout : st.output = some prev)
    (hval : validate_news_data (balance_categories all_items) = false) :
    mainPublish st all_items = st ∧ (mainPublish st all_items).output = some prev := by
  have hmain : mainPublish st all_items = st := by
    rw [mainPublish]
    by_cases he : all_items.isEmpty = true
    · rw [if_pos he]
    · rw [if_neg he]
      simp only [hout, hval]
      simp
  exact ⟨hmain, by rw [hmain, hout]⟩

/-- Witness for C1: a one-item candidate (category `newsroom` has 1 < 3 items,
so validation fails) against an existing published dataset leaves the state
untouched. -/
theorem claim_C1_safe_publish_witness :
    c1state.output = some prevDataset ∧
    validate_news_data (balance_categories [itemA]) = false ∧
    mainPublish c1state [itemA] = c1state :=
  ⟨rfl, by decide,
    (claim_C1_safe_publish c1state [itemA] prevDataset rfl (by decide)).1⟩

/-! ## Claim C2 -/

/-- Counterexample for C2: validation only inspects categories that occur in
the item list.  A set of three `newsroom` items passes `validate_news_data`,
yet `playout` is a configured category (a key of `FEED_GROUPS`) with zero
items — below `MIN_REQUIRED_EACH = 3`.  So success of validation does not
guarantee the minimum for configured categories absent from the set. -/
theorem claim_C2_counterexample :
    validate_news_data [itemA, itemB, itemC] = true ∧
    "playout" ∈ FEED_GROUPS.map Prod.fst ∧
    ([itemA, itemB, itemC].countP
      (fun it => decide (it.category = "playout"))) < MIN_REQUIRED_EACH := by
  refine ⟨by decide, by decide, by decide⟩

/-- Claim C2 (amended): whenever `validate_news_data` returns `true`, every
category that occurs among the items holds at least `MIN_REQUIRED_EACH` items;
configured categories with zero items are not checked (they never enter the
`category_counts` dict). -/
theorem claim_C2_validation_minimum (items : List Item)
    (hval : validate_news_data items = true) :
    ∀ c ∈ items.map (fun it => it.category),
      MIN_REQUIRED_EACH ≤ items.countP (fun it => decide (it.category = c)) := by
  intro c hc
  have hpos : 0 < items.countP (fun it => decide (it.category = c)) := by
    rw [List.countP_pos_iff]
    obtain ⟨it, hit, hcat⟩ := List.mem_map.mp hc
    exact ⟨it, hit, by simp [hcat]⟩
  have hlookup : lookupCount (categoryCounts items) c =
      items.countP (fun it => decide (it.category = c)) := by
    have := foldl_bump_lookup items [] c
    simpa [categoryCounts, lookupCount] using this
  obtain ⟨p, hp, hp1, hp2⟩ := lookupCount_exists (categoryCounts items) c
    (by omega)
  have := validate_all_counts items hval p hp
  omega

/-- Witness for C2 (amended): the three-`newsroom`-item set passes validation
and indeed holds at least `MIN_REQUIRED_EACH` items of category `newsroom`. -/
theorem claim_C2_validation_minimum_witness :
    validate_news_data [itemA, itemB, itemC] = true ∧
    MIN_REQUIRED_EACH ≤ [itemA, itemB, itemC].countP
      (fun it => decide (it.category = "newsroom")) :=
  ⟨by decide,
    claim_C2_validation_minimum [itemA, itemB, itemC] (by decide) "newsroom" (by decide)⟩

/-! ## Claim C8 -/

/-- Claim C8: deduplication is idempotent — applying `deduplicate_by_guid` to
its own output returns that output unchanged (hence same items, same order,
same identifier set and count). -/
theorem claim_C8_dedup_idempotent (l : List Item) :
    deduplicate_by_guid (deduplicate_by_guid l) = deduplicate_by_guid l := by
  rw [deduplicate_by_guid, deduplicate_by_guid]
  refine dedup_fixed _ [] ?_ ?_
  · intro x hx
    exact ⟨(dedup_mem_spec l [] x hx).1, by simp⟩
  · exact dedup_pairwise l []

/-! ## Claim C9 -/

/-- Claim C9: every dataset produced by aggregation (`balance_categories`,
which begins with `deduplicate_by_guid`) has pairwise-distinct item
identifiers, and every identifier in it is non-empty. -/
theorem claim_C9_unique_nonempty_guids (l : List Item) :
    (balance_categories l).Pairwise (fun a b => a.guid ≠ b.guid) ∧
    ∀ x ∈ balance_categories l, x.guid ≠ "" := by
  constructor
  · obtain ⟨m, hmp, hms⟩ := balance_subperm_dedup l
    have hpd : (deduplicate_by_guid l).Pairwise (fun a b => a.guid ≠ b.guid) := by
      rw [deduplicate_by_guid]
      exact dedup_pairwise l []
    have hpm := List.Pairwise.sublist hms hpd
    exact (List.Perm.pairwise_iff (fun h e => h e.symm) hmp).mp hpm
  · intro x hx
    have hmem : x ∈ deduplicate_by_guid l := (balance_subperm_dedup l).subset hx
    rw [deduplicate_by_guid] at hmem
    exact (dedup_mem_spec l [] x hmem).1

/-- Witness for C9: on a concrete two-item input the balanced output has
pairwise-distinct guids, and the membership part applies to `itemA`. -/
theorem claim_C9_unique_nonempty_guids_witness :
    (balance_categories [itemA, itemB]).Pairwise (fun a b => a.guid ≠ b.guid) ∧
    itemA.guid ≠ "" :=
  ⟨(claim_C9_unique_nonempty_guids [itemA, itemB]).1,
    (claim_C9_unique_nonempty_guids [itemA, itemB]).2 itemA (by decide)⟩

/-! ## Claim C10 -/

theorem dedup_skip_empty_guid (x : Item) (l₂ : List Item) (hx : x.guid = "") :
    ∀ (l₁ : List Item) (seen : List String),
      dedupGuidAux seen (l₁ ++ x :: l₂) = dedupGuidAux seen (l₁ ++ l₂) := by
  intro l₁
  induction l₁ with
  | nil =>
    intro seen
    have hcond : ¬ (x.guid ≠ "" ∧ containsStr seen x.guid = false) := by
      intro h
      exact h.1 hx
    simp only [List.nil_append]
    rw [dedupGuidAux, if_neg hcond]
  | cons a l₁ ih =>
    intro seen
    simp only [List.cons_append]
    rw [dedupGuidAux, dedupGuidAux]
    by_cases h : a.guid ≠ "" ∧ containsStr seen a.guid = false
    · rw [if_pos h, if_pos h, ih]
    · rw [if_neg h, if_neg h, ih]

/-- Claim C10: `deduplicate_by_guid` silently removes every item whose guid is
empty — even an item that is not a duplicate of anything (removing it from any
position leaves the output unchanged) — and consequently no item with an
empty guid ever appears in its output. -/
theorem claim_C10_empty_guid_dropped :
    (∀ (l₁ l₂ : List Item) (x : Item), x.guid = "" →
      deduplicate_by_guid (l₁ ++ x :: l₂) = deduplicate_by_guid (l₁ ++ l₂)) ∧
    (∀ (l : List Item) (x : Item), x ∈ deduplicate_by_guid l → x.guid ≠ "") := by
  constructor
  · intro l₁ l₂ x hx
    rw [deduplicate_by_guid, deduplicate_by_guid, dedup_skip_empty_guid x l₂ hx l₁]
  · intro l x hx
    rw [deduplicate_by_guid] at hx
    exact (dedup_mem_spec l [] x hx).1

/-- Witness for C10: dropping the concrete empty-guid item `itemNoGuid`
between `itemA` and `itemB` leaves deduplication unchanged, and `itemA`
(a member of a deduplicated list) has a non-empty guid. -/
theorem claim_C10_empty_guid_dropped_witness :
    deduplicate_by_guid ([itemA] ++ itemNoGuid :: [itemB]) =
      deduplicate_by_guid ([itemA] ++ [itemB]) ∧
    itemA.guid ≠ "" :=
  ⟨claim_C10_empty_guid_dropped.1 [itemA] [itemB] itemNoGuid rfl,
    claim_C10_empty_guid_dropped.2 [itemA] itemA (by decide)⟩

/-! ## Regex scanners used by src/fetch.py

The image and meta-tag regular expressions of src/fetch.py are embedded as
character-list scanners.  `re.IGNORECASE` literal matching is modelled by
`matchCI`; a quoted capture `["']([^"']+)["']` by `readQuotedCapture`; the
greedy `[^>]+` gap before an attribute by `findKeyInTag`, which prefers the
rightmost completing match inside the tag, as backtracking from a greedy
quantifier does. -/

/-- Case-insensitive literal match: consume the pattern (first argument) from
the input, returning the rest of the input. -/
def matchCI : List Char → List Char → Option (List Char)
  | [], rest => some rest
  | _ :: _, [] => none
  | p :: ps, c :: cs => if p.toLower = c.toLower then matchCI ps cs else none

/-- Case-sensitive literal match (for the `re.sub` patterns, which are
compiled without `re.IGNORECASE`). -/
def matchExact : List Char → List Char → Option (List Char)
  | [], rest => some rest
  | _ :: _, [] => none
  | p :: ps, c :: cs => if p = c then matchExact ps cs else none

/-- Either quote character, `"` or `'` (regex class `["']`). -/
def isQuoteChar (c : Char) : Bool :=
  decide (c = Char.ofNat 34) || decide (c = Char.ofNat 39)

/-- Capture `([^"']+)` followed by a closing `["']`: accumulate non-quote
characters (at least one) up to the next quote. -/
def readQuotedCapture : List Char → List Char → Option (List Char)
  | _, [] => none
  | acc, c :: cs =>
    if FetchPy.isQuoteChar c then (if acc.isEmpty then none else some acc.reverse)
    else readQuotedCapture (c :: acc) cs

/-- Try to match `key["']([^"']+)["']` at the current position (e.g.
`key = "src="`). -/
def tryKeyCapture (key : List Char) (cs : List Char) : Option (List Char) :=
  match matchCI key cs with
  | none => none
  | some rest =>
    match rest with
    | [] => none
    | q :: rest2 => if isQuoteChar q then readQuotedCapture [] rest2 else none

/-- Match `[^>]+key["']([^"']+)["']`: scan forward over non-`>` characters
(the flag records whether at least one has been consumed, as `[^>]+` requires)
and return the capture of the rightmost position where the rest matches,
mirroring the backtracking of the greedy `[^>]+`. -/
def findKeyInTag (key : List Char) : Bool → List Char → Option (List Char)
  | _, [] => none
  | consumed, c :: cs =>
    if c = '>' then none
    else
      match findKeyInTag key true cs with
      | some r => some r
      | none => if consumed then tryKeyCapture key (c :: cs) else none

/-- Leftmost match of `<img[^>]+src=["']([^"']+)["']` (case-insensitive):
the first `<img` occurrence from which the tag scan completes, as
`re.search` finds (src/fetch.py line 309). -/
def findImgSrcAux : List Char → Option (List Char)
  | [] => none
  | c :: cs =>
    match matchCI "<img".data (c :: cs) with
    | some rest =>
      match findKeyInTag "src=".data false rest with
      | some r => some r
      | none => findImgSrcAux cs
    | none => findImgSrcAux cs

/-- String-level wrapper for the `<img ... src=...>` regex search of
src/fetch.py line 309. -/
def findImgSrc (s : String) : Option String :=
  (findImgSrcAux s.data).map String.mk

/-- Match `\s+`: at least one whitespace character, greedily consumed. -/
def skipWs1 : List Char → Option (List Char)
  | [] => none
  | c :: cs => if isWsChar c then some (cs.dropWhile isWsChar) else none

/-- Try to match
`<meta\s+ATTR=["']VALUE["'][^>]+content=["']([^"']+)["']` at the current
position (the `og:image` / `twitter:image` regexes of src/fetch.py lines
343 and 353). -/
def tryMetaAt (attr value : List Char) (cs : List Char) : Option (List Char) :=
  match matchCI "<meta".data cs with
  | none => none
  | some r1 =>
    match skipWs1 r1 with
    | none => none
    | some r2 =>
      match matchCI attr r2 with
      | none => none
      | some r3 =>
        match r3 with
        | [] => none
        | q :: r4 =>
          if isQuoteChar q then
            match matchCI value r4 with
            | none => none
            | some r5 =>
              match r5 with
              | [] => none
              | q2 :: r6 =>
                if isQuoteChar q2 then findKeyInTag "content=".data false r6
                else none
          else none

/-- Leftmost match of the meta-tag regex over the whole document. -/
def findMetaAux (attr value : List Char) : List Char → Option (List Char)
  | [] => none
  | c :: cs =>
    match tryMetaAt attr value (c :: cs) with
    | some r => some r
    | none => findMetaAux attr value cs

/-- Search the page HTML for a `<meta attrName="value" ... content="...">`
tag and return the captured content, as src/fetch.py lines 343-359 do for
`property="og:image"` and `name="twitter:image"`. -/
def findMetaContent (attrName value html : String) : Option String :=
  (findMetaAux (attrName.data ++ ['=']) value.data html.data).map String.mk

/-- ASCII digit test (regex `\d`). -/
def isDigitCh (c : Char) : Bool := decide (48 ≤ c.toNat) && decide (c.toNat ≤ 57)

/-- Consume `\d+`: at least one digit, greedily. -/
def consumeDigits : List Char → Option (List Char)
  | [] => none
  | c :: cs => if isDigitCh c then some (cs.dropWhile isDigitCh) else none

/-- Try the alternatives of a regex `(a|b)=\d+` in order at the current
position, returning the alternative that matched and the rest of the input. -/
def matchAltEqDigits : List String → List Char → Option (String × List Char)
  | [], _ => none
  | alt :: alts, cs =>
    match matchExact alt.data cs with
    | some r1 =>
      match r1 with
      | '=' :: r2 =>
        match consumeDigits r2 with
        | some rest => some (alt, rest)
        | none => matchAltEqDigits alts cs
      | _ => matchAltEqDigits alts cs
    | none => matchAltEqDigits alts cs

/-- Fuelled left-to-right scan of `re.sub(r'(a|b)=\d+', r'\1=REPL', s)`:
replace every non-overlapping occurrence.  The fuel (initially the input
length) only bounds the recursion; every step consumes at least one
character, so it never runs out before the input does. -/
def subParamAllAux (alts : List String) (repl : List Char) : Nat → List Char → List Char
  | _, [] => []
  | 0, cs => cs
  | fuel + 1, c :: cs =>
    match matchAltEqDigits alts (c :: cs) with
    | some (alt, rest) => alt.data ++ '=' :: (repl ++ subParamAllAux alts repl fuel rest)
    | none => c :: subParamAllAux alts repl fuel cs

/-- Model of `re.sub(r'(a|b)=\d+', r'\1=REPL', s)` (src/fetch.py lines
321-323 and 348-349). -/
def subParamAll (alts : List String) (repl : String) (cs : List Char) : List Char :=
  subParamAllAux alts repl.data cs.length cs

/-- The low-quality rewrite of src/fetch.py lines 321-323: set `w`/`width`
parameters to 400, `h`/`height` to 300 and `q`/`quality` to 60. -/
def lowQualityUrl (url : String) : String :=
  String.mk (subParamAll ["q", "quality"] "60"
    (subParamAll ["h", "height"] "300"
      (subParamAll ["w", "width"] "400" url.data)))

/-- The low-quality rewrite of `extract_og_image` (src/fetch.py lines
347-349 and 356-358): only the `w`/`width` and `h`/`height` parameters. -/
def ogLowQuality (url : String) : String :=
  String.mk (subParamAll ["h", "height"] "300"
    (subParamAll ["w", "width"] "400" url.data))

/-! ## Image extraction of src/fetch.py (lines 286-363) -/

/-- Enclosure record of a feed entry: the `type`, `href` and `url` keys of the
feedparser enclosure dict, with `""` standing for an absent or empty value. -/
structure FEnclosure where
  type : String
  href : String
  url : String
deriving DecidableEq

/-- Raw feedparser entry as consumed by src/fetch.py.  `media_content` and
`media_thumbnail` are the lists of `url` values of the corresponding elements
(with `""` for an absent `url` key, and `[]` when the attribute is absent —
an empty loop behaves identically).  `entryId` models `entry.get('id', ...)`
(`none` when the entry has no `id` key).  `published` / `updated` abstract the
`published_parsed` / `updated_parsed` time structs as the ISO-8601 string the
code derives from them via `datetime(...).isoformat()` (`none` when the
struct is absent or unparseable, matching the `except: pass` paths of lines
389-399). -/
structure FEntry where
  title : String
  link : String
  entryId : Option String
  media_content : List String
  media_thumbnail : List String
  enclosures : List FEnclosure
  description : String
  summary : String
  published : Option String
  updated : Option String
deriving DecidableEq

/-- Placeholder substrings rejected by step 4 of `extract_image_from_entry`
(src/fetch.py line 312). -/
def step4Placeholders : List String := ["1x1", "pixel", "tracker", "spacer"]

/-- Model of `any(x in url.lower() for x in pats)`. -/
def hasAnySubstrLower (pats : List String) (u : String) : Bool :=
  pats.any (fun p => isSubstrChars p.data (u.data.map Char.toLower))

/-- Model of `'w=' in url or 'width=' in url` (src/fetch.py lines 319 and
347). -/
def containsWParam (u : String) : Bool :=
  isSubstrChars "w=".data u.data || isSubstrChars "width=".data u.data

/-- Step 4 of `extract_image_from_entry` (src/fetch.py lines 306-313): take
the description (falling back to the summary), search it for an `<img ...
src=...>` and accept the URL only when it contains none of the placeholder
substrings; on a placeholder hit the cascade falls through. -/
def descriptionCandidate (e : FEntry) : Option String :=
  let description := if e.description ≠ "" then e.description else e.summary
  if description ≠ "" then
    match findImgSrc description with
    | some u => if hasAnySubstrLower step4Placeholders u then none else some u
    | none => none
  else none

/-- Model of `extract_image_from_entry` (src/fetch.py lines 286-326):
1. first `media:content` with a truthy url — returned unvalidated;
2. first `media:thumbnail` with a truthy url — returned unvalidated;
3. first enclosure with an `image/` type — its `href` or `url` returned
   unvalidated (an early `return` even when both are empty, i.e. `none`);
4. the first `<img>` src of the description HTML, with the placeholder
   filter;
5. the first `media:content` url carrying a `w=`/`width=` parameter, with
   the low-quality rewrite applied. -/
def extract_image_from_entry (e : FEntry) : Option String :=
  match e.media_content.find? (fun u => decide (u ≠ "")) with
  | some u => some u
  | none =>
    match e.media_thumbnail.find? (fun u => decide (u ≠ "")) with
    | some u => some u
    | none =>
      match e.enclosures.find? (fun enc => pyStartsWith enc.type "image/") with
      | some enc =>
        if enc.href ≠ "" then some enc.href
        else if enc.url ≠ "" then some enc.url else none
      | none =>
        match descriptionCandidate e with
        | some u => some u
        | none =>
          match e.media_content.find? (fun u => decide (u ≠ "") && containsWParam u) with
          | some u => some (lowQualityUrl u)
          | none => none

/-- Model of `extract_og_image` (src/fetch.py lines 328-363).  The network is
the oracle `fetchPage : String → Option String`, returning the page text on a
200 response and `none` on any non-200 status, timeout or exception.  The
first 50000 characters are scanned for an `og:image`, then a `twitter:image`
meta tag; a `w=`/`width=` parameter in the result triggers the low-quality
rewrite. -/
def extract_og_image (fetchPage : String → Option String) (article_url : String) :
    Option String :=
  match fetchPage article_url with
  | none => none
  | some text =>
    let html := String.mk (text.data.take 50000)
    match findMetaContent "property" "og:image" html with
    | some u => some (if containsWParam u then ogLowQuality u else u)
    | none =>
      match findMetaContent "name" "twitter:image" html with
      | some u => some (if containsWParam u then ogLowQuality u else u)
      | none => none

/-! ## Entry normalization of src/fetch.py (lines 365-420) -/

/-- Loop body of `process_entries` (src/fetch.py lines 370-418), threading the
`article_fetch_count` budget counter.  `now` is the ISO timestamp
`datetime.now(timezone.utc).isoformat()` and `nowTs` the Unix stamp
`int(time.time())` of the run. -/
def processEntriesAux (fetchPage : String → Option String) (now : String) (nowTs : Nat)
    (category source_name feed_url : String) :
    Nat → List FEntry → List Item
  | _, [] => []
  | fetchCount, e :: rest =>
    let title := pyStrip e.title
    let link := pyStrip e.link
    if title = "" ∨ link = "" then
      processEntriesAux fetchPage now nowTs category source_name feed_url fetchCount rest
    else
      let image0 := extract_image_from_entry e
      let needOg := image0.isNone && decide (fetchCount < MAX_ARTICLE_FETCHES)
      let image := if needOg then extract_og_image fetchPage link else image0
      let fetchCount1 := if needOg then fetchCount + 1 else fetchCount
      let pub_date :=
        match e.published with
        | some d => d
        | none =>
          match e.updated with
          | some d => d
          | none => now
      { title := title, link := link, guid := e.entryId.getD link,
        category := category, source := source_name, image := image,
        pubDate := pub_date, timestamp := nowTs,
        lowPriority := containsStr LOW_PRIORITY_FEEDS feed_url } ::
        processEntriesAux fetchPage now nowTs category source_name feed_url fetchCount1 rest

/-- Model of `process_entries` (src/fetch.py lines 365-420): normalize feed
entries into items, dropping entries with an empty (stripped) title or link,
resolving images through the cascade with the per-run `MAX_ARTICLE_FETCHES`
budget for remote og-image fetches. -/
def process_entries (fetchPage : String → Option String) (now : String) (nowTs : Nat)
    (entries : List FEntry) (category source_name feed_url : String) : List Item :=
  processEntriesAux fetchPage now nowTs category source_name feed_url 0 entries

/-! ## Feed fetching of src/fetch.py (lines 231-284) -/

/-- A parsed feed is its entry list (`feed.entries`); the truthiness of the
feedparser result object is modelled by the `Option`. -/
abbrev Feed := List FEntry

/-- Model of `should_use_direct_fetch` (src/fetch.py lines 231-233). -/
def should_use_direct_fetch (feed_url : String) : Bool :=
  containsStr DIRECT_FEEDS feed_url

/-- Model of `fetch_feed_with_fallback` (src/fetch.py lines 270-284) with the
two network paths as oracles: for an allow-listed feed try the direct path
and return `None` on failure (no other path is tried); otherwise try the
worker path and fall back to the direct path once. -/
def fetch_feed_with_fallback (workerFetch directFetch : String → Option Feed)
    (feed_url : String) : Option Feed :=
  if should_use_direct_fetch feed_url then
    match directFetch feed_url with
    | some feed => some feed
    | none => none
  else
    match workerFetch feed_url with
    | some feed => some feed
    | none => directFetch feed_url

/-! ## Claim C4 -/

theorem step4_no_placeholder (d u : String)
    (h : (if d ≠ "" then
        match findImgSrc d with
        | some w => if hasAnySubstrLower step4Placeholders w then none else some w
        | none => none
      else none) = some u) :
    hasAnySubstrLower step4Placeholders u = false := by
  by_cases hd : d ≠ ""
  · rw [if_pos hd] at h
    cases hf : findImgSrc d with
    | none =>
      rw [hf] at h
      exact absurd h (by simp)
    | some w =>
      rw [hf] at h
      dsimp only at h
      by_cases hp : hasAnySubstrLower step4Placeholders w = true
      · rw [if_pos hp] at h
        exact absurd h (by simp)
      · rw [if_neg hp] at h
        have hwu : w = u := by injection h
        subst hwu
        simpa using hp
  · rw [if_neg hd] at h
    exact absurd h (by simp)

theorem descriptionCandidate_no_placeholder (e : FEntry) (u : String)
    (h : descriptionCandidate e = some u) :
    hasAnySubstrLower step4Placeholders u = false := by
  simp only [descriptionCandidate] at h
  exact step4_no_placeholder (if e.description ≠ "" then e.description else e.summary) u h

/-- Entry whose only image candidate is a `media:content` URL containing the
placeholder substring `1x1`. -/
def c4entry : FEntry :=
  { title := "I", link := "https://example.com/i", entryId := none,
    media_content := ["https://example.com/1x1.gif"], media_thumbnail := [],
    enclosures := [], description := "", summary := "",
    published := some "2024-01-05T00:00:00+00:00", updated := none }

/-- The items produced from `c4entry` by the normalizer. -/
def c4out : List Item :=
  process_entries (fun _ => none) "2024-01-05T01:00:00+00:00" 100 [c4entry]
    "newsroom" "Src" ""

/-- Counterexample for C4: step 1 of the cascade (`media:content`) returns its
URL without any placeholder validation (src/fetch.py lines 289-292), so an
Item whose image contains the rejected substring `1x1` is produced, survives
aggregation unchanged, and is published by a first run. -/
theorem claim_C4_counterexample :
    c4out.map (fun it => it.image) = [some "https://example.com/1x1.gif"] ∧
    hasAnySubstrLower step4Placeholders "https://example.com/1x1.gif" = true ∧
    balance_categories c4out = c4out ∧
    mainPublish { output := none, archive := none } c4out =
      { output := some c4out, archive := none } :=
  ⟨by decide, by decide, by decide, by decide⟩

/-- Claim C4 (amended): the placeholder filter is applied only to the
candidate extracted from the description/summary HTML (step 4 of the
cascade); when the structured candidates (media content, thumbnail,
enclosures) are absent, any URL returned by `extract_image_from_entry`
therefore contains no rejected placeholder substring — but candidates from
the other steps are returned without this validation. -/
theorem claim_C4_cascade_validation (e : FEntry) (u : String)
    (h1 : e.media_content = []) (h2 : e.media_thumbnail = [])
    (h3 : e.enclosures = [])
    (hres : extract_image_from_entry e = some u) :
    hasAnySubstrLower step4Placeholders u = false := by
  rw [extract_image_from_entry, h1, h2, h3] at hres
  simp only [List.find?_nil] at hres
  cases hdc : descriptionCandidate e with
  | some v =>
    rw [hdc] at hres
    have hvu : v = u := by injection hres
    exact hvu ▸ descriptionCandidate_no_placeholder e v hdc
  | none =>
    rw [hdc] at hres
    exact absurd hres (by simp)

/-- Entry with no structured media whose description carries a clean image. -/
def c4witnessEntry : FEntry :=
  { title := "W", link := "https://example.com/w", entryId := none,
    media_content := [], media_thumbnail := [], enclosures := [],
    description := "<img src=\"https://x.com/a.jpg\">", summary := "",
    published := none, updated := none }

/-- Witness for C4 (amended): the description-derived candidate of
`c4witnessEntry` is accepted and is placeholder-free. -/
theorem claim_C4_cascade_validation_witness :
    extract_image_from_entry c4witnessEntry = some "https://x.com/a.jpg" ∧
    hasAnySubstrLower step4Placeholders "https://x.com/a.jpg" = false :=
  ⟨by decide,
    claim_C4_cascade_validation c4witnessEntry "https://x.com/a.jpg" rfl rfl rfl
      (by decide)⟩

/-! ## Claim C5 (fetch.py side) -/

/-- Claim C5 (amended, fetch.py pipeline): when no image candidate of an
entry survives the cascade and the remote og-image fallback fails, the entry
is still normalized into an Item and that Item carries a null image. -/
theorem claim_C5_null_image (fetchPage : String → Option String) (e : FEntry)
    (now : String) (nowTs : Nat) (category source_name feed_url : String)
    (htitle : pyStrip e.title ≠ "") (hlink : pyStrip e.link ≠ "")
    (himg : extract_image_from_entry e = none)
    (hog : fetchPage (pyStrip e.link) = none) :
    (process_entries fetchPage now nowTs [e] category source_name feed_url).map
      (fun it => it.image) = [none] := by
  have hcond : ¬ (pyStrip e.title = "" ∨ pyStrip e.link = "") := by
    rintro (h | h)
    · exact htitle h
    · exact hlink h
  rw [process_entries, processEntriesAux, if_neg hcond]
  simp only [himg, Option.isNone_none, Bool.true_and, MAX_ARTICLE_FETCHES]
  rw [if_pos (by decide)]
  rw [extract_og_image, hog]
  simp [processEntriesAux]

/-- Entry with no image candidates at all. -/
def c5entry : FEntry :=
  { title := "E", link := "https://example.com/e", entryId := none,
    media_content := [], media_thumbnail := [], enclosures := [],
    description := "", summary := "",
    published := some "2024-01-06T00:00:00+00:00", updated := none }

/-- Witness for C5 (amended): `c5entry` has no surviving candidate, the
page-fetch oracle fails, and the published item has a null image. -/
theorem claim_C5_null_image_witness :
    extract_image_from_entry c5entry = none ∧
    (process_entries (fun _ => none) "2024-01-06T01:00:00+00:00" 0 [c5entry]
        "newsroom" "Src" "").map (fun it => it.image) = [none] :=
  ⟨by decide,
    claim_C5_null_image (fun _ => none) c5entry "2024-01-06T01:00:00+00:00" 0
      "newsroom" "Src" "" (by decide) (by decide) (by decide) rfl⟩

/-! ## Claim C6 -/

/-- Counterexample for C6: `https://www.streamingmediablog.com/feed` is on the
`DIRECT_FEEDS` allow-list; when its direct fetch fails, the fetcher returns
`None` without retrying through the worker — even though the worker path
(modelled by an oracle that always succeeds) would have returned a feed. -/
theorem claim_C6_counterexample :
    should_use_direct_fetch "https://www.streamingmediablog.com/feed" = true ∧
    fetch_feed_with_fallback (fun _ => some ([] : Feed)) (fun _ => none)
      "https://www.streamingmediablog.com/feed" = none ∧
    (fun _ => some ([] : Feed)) "https://www.streamingmediablog.com/feed" =
      some ([] : Feed) :=
  ⟨by decide, by decide, rfl⟩

/-- Claim C6 (amended): for a feed not on the allow-list the worker path is
primary and a failure is retried once via the direct path; for an allow-listed
feed the direct path is the only one tried — a failed direct fetch returns the
no-data result without a proxy retry. -/
theorem claim_C6_fallback_direction (workerFetch directFetch : String → Option Feed)
    (feed_url : String) :
    fetch_feed_with_fallback workerFetch directFetch feed_url =
      if should_use_direct_fetch feed_url then directFetch feed_url
      else
        match workerFetch feed_url with
        | some f => some f
        | none => directFetch feed_url := by
  rw [fetch_feed_with_fallback]
  by_cases h : should_use_direct_fetch feed_url = true
  · rw [if_pos h, if_pos h]
    cases directFetch feed_url <;> rfl
  · rw [if_neg h, if_neg h]

/-! ## Claim C7 -/

theorem processEntriesAux_length (fetchPage : String → Option String)
    (now : String) (nowTs : Nat) (category source_name feed_url : String) :
    ∀ (entries : List FEntry) (fc : Nat),
      (processEntriesAux fetchPage now nowTs category source_name feed_url
          fc entries).length =
        entries.countP
          (fun e => decide (pyStrip e.title ≠ "") && decide (pyStrip e.link ≠ "")) := by
  intro entries
  induction entries with
  | nil => intro fc; simp [processEntriesAux]
  | cons e rest ih =>
    intro fc
    rw [List.countP_cons]
    by_cases h : pyStrip e.title = "" ∨ pyStrip e.link = ""
    · rw [processEntriesAux, if_pos h, ih]
      have hp : (decide (pyStrip e.title ≠ "") && decide (pyStrip e.link ≠ "")) = false := by
        rcases h with h | h <;> simp [h]
      rw [hp]
      simp
    · rw [processEntriesAux, if_neg h]
      push_neg at h
      have hp : (decide (pyStrip e.title ≠ "") && decide (pyStrip e.link ≠ "")) = true := by
        simp [h.1, h.2]
      rw [List.length_cons, ih, hp]
      simp

theorem processEntriesAux_link_nonempty (fetchPage : String → Option String)
    (now : String) (nowTs : Nat) (category source_name feed_url : String) :
    ∀ (entries : List FEntry) (fc : Nat) (it : Item),
      it ∈ processEntriesAux fetchPage now nowTs category source_name feed_url
          fc entries → it.link ≠ "" := by
  intro entries
  induction entries with
  | nil => intro fc it hmem; simp [processEntriesAux] at hmem
  | cons e rest ih =>
    intro fc it hmem
    by_cases h : pyStrip e.title = "" ∨ pyStrip e.link = ""
    · rw [processEntriesAux, if_pos h] at hmem
      exact ih _ it hmem
    · rw [processEntriesAux, if_neg h] at hmem
      push_neg at h
      rcases List.mem_cons.mp hmem with h1 | h1
      · subst h1
        exact h.2
      · exact ih _ it h1

/-- Claim C7 (amended): the normalizer rejects a raw entry exactly when its
stripped title or stripped link is empty — there is no check that the link
starts with `http://`/`https://` — and consequently every produced Item has a
non-empty (but not necessarily http(s)) link. -/
theorem claim_C7_rejection_criterion (fetchPage : String → Option String)
    (now : String) (nowTs : Nat) (entries : List FEntry)
    (category source_name feed_url : String) :
    (process_entries fetchPage now nowTs entries category source_name feed_url).length =
      entries.countP
        (fun e => decide (pyStrip e.title ≠ "") && decide (pyStrip e.link ≠ "")) ∧
    ∀ it ∈ process_entries fetchPage now nowTs entries category source_name feed_url,
      it.link ≠ "" :=
  ⟨processEntriesAux_length fetchPage now nowTs category source_name feed_url entries 0,
    fun it hmem =>
      processEntriesAux_link_nonempty fetchPage now nowTs category source_name feed_url
        entries 0 it hmem⟩

/-- Entry with a non-empty title and a link that is not an http(s) URL. -/
def c7entry : FEntry :=
  { title := "T", link := "notaurl", entryId := none,
    media_content := [], media_thumbnail := [], enclosures := [],
    description := "", summary := "",
    published := some "2024-01-07T00:00:00+00:00", updated := none }

/-- The items produced from `c7entry` by the normalizer. -/
def c7out : List Item :=
  process_entries (fun _ => none) "2024-01-07T01:00:00+00:00" 0 [c7entry]
    "newsroom" "Src" ""

/-- Counterexample for C7: `process_entries` accepts an entry whose link does
not start with `http://`/`https://` (src/fetch.py lines 372-377 check only
truthiness of title and link), producing a published Item with link
`notaurl`. -/
theorem claim_C7_counterexample :
    c7out.map (fun it => it.link) = ["notaurl"] ∧
    pyStartsWith "notaurl" "http://" = false ∧
    pyStartsWith "notaurl" "https://" = false :=
  ⟨by decide, by decide, by decide⟩

/-- Entry accepted by the normalizer, used by the C7 witness. -/
def c7goodEntry : FEntry :=
  { title := "G", link := "https://example.com/g", entryId := none,
    media_content := [], media_thumbnail := [], enclosures := [],
    description := "", summary := "",
    published := some "2024-01-07T02:00:00+00:00", updated := none }

/-- Witness for C7 (amended): on a concrete entry list the produced count
matches the accept predicate and the produced item has a non-empty link. -/
theorem claim_C7_rejection_criterion_witness :
    (process_entries (fun _ => none) "2024-01-07T03:00:00+00:00" 0
        [c7goodEntry] "newsroom" "Src" "").length =
      [c7goodEntry].countP
        (fun e => decide (pyStrip e.title ≠ "") && decide (pyStrip e.link ≠ "")) ∧
    (process_entries (fun _ => none) "2024-01-07T03:00:00+00:00" 0
        [c7goodEntry] "newsroom" "Src" "").all (fun it => decide (it.link ≠ "")) := by
  constructor
  · exact (claim_C7_rejection_criterion (fun _ => none) "2024-01-07T03:00:00+00:00" 0
      [c7goodEntry] "newsroom" "Src" "").1
  · rw [List.all_eq_true]
    intro it hmem
    simpa using (claim_C7_rejection_criterion (fun _ => none) "2024-01-07T03:00:00+00:00" 0
      [c7goodEntry] "newsroom" "Src" "").2 it hmem

end FetchPy

namespace FetchRss

/-! ## Model of src/fetch_rss.py -/

/-- Item record built by `parse_rss_feed` (src/fetch_rss.py lines 234-243 and
261-270): the dict with keys `guid`, `title`, `link`, `source`, `image`,
`category`, `timestamp`, `summary`.  In this pipeline `image` is always a
string (a category fallback is substituted when nothing is found). -/
structure RItem where
  guid : String
  title : String
  link : String
  source : String
  image : String
  category : String
  timestamp : String
  summary : String
deriving DecidableEq

/-- Category-specific fallback images `CATEGORY_FALLBACKS`
(src/fetch_rss.py lines 70-78). -/
def CATEGORY_FALLBACKS : List (String × String) := [
  ("newsroom", "https://images.unsplash.com/photo-1504711434969-e33886168f5c?w=800&q=80"),
  ("playout", "https://images.unsplash.com/photo-1598488035139-bdbb2231ce04?w=800&q=80"),
  ("infrastructure", "https://images.unsplash.com/photo-1558494949-ef010cbdcc31?w=800&q=80"),
  ("graphics", "https://images.unsplash.com/photo-1550745165-9bc0b252726f?w=800&q=80"),
  ("cloud", "https://images.unsplash.com/photo-1451187580459-43490279c0fa?w=800&q=80"),
  ("streaming", "https://images.unsplash.com/photo-1611162617474-5b21e879e113?w=800&q=80"),
  ("audio-ai", "https://images.unsplash.com/photo-1598488035139-bdbb2231ce04?w=800&q=80")]

/-- Model of `CATEGORY_FALLBACKS.get(category, "assets/fallback.jpg")`
(src/fetch_rss.py line 150). -/
def fallbackFor (category : String) : String :=
  match CATEGORY_FALLBACKS.find? (fun p => decide (p.1 = category)) with
  | some p => p.2
  | none => "assets/fallback.jpg"

/-- Substrings rejecting tracking pixels in `is_valid_image`
(src/fetch_rss.py line 171). -/
def pixelPats : List String := ["1x1", "pixel", "tracker", "beacon"]

/-- Substrings rejecting person photos in `is_valid_image`
(src/fetch_rss.py line 175). -/
def personPats : List String := ["headshot", "portrait", "person", "face", "avatar", "profile"]

/-- Accepted image extensions of `is_valid_image` (src/fetch_rss.py line 183). -/
def imageExts : List String := [".jpg", ".jpeg", ".png", ".webp"]

/-- Model of `is_valid_image` (src/fetch_rss.py lines 163-186): reject empty
URLs, tracking-pixel substrings, person-photo substrings and `.gif`; accept
exactly the recognized image extensions. -/
def is_valid_image (url : String) : Bool :=
  if url = "" then false
  else
    let url_lower := pyLower url
    if pixelPats.any (fun p => substrB p url_lower) then false
    else if personPats.any (fun p => substrB p url_lower) then false
    else if pyEndsWith url_lower ".gif" then false
    else if imageExts.any (fun ext => pyEndsWith url_lower ext) then true
    else false

/-- Model of `html.unescape` restricted to the predefined XML/HTML entities
that occur in feed markup (`&amp;` `&lt;` `&gt;` `&quot;` `&#39;` `&apos;`);
other ampersands are passed through, as `html.unescape` does for
non-entities.  Fuelled recursion: every step consumes at least one character,
so the initial fuel (the input length) never runs out early. -/
def unescapeHtmlAux : Nat → List Char → List Char
  | 0, cs => cs
  | _, [] => []
  | fuel + 1, c :: rest =>
    if c = '&' then
      if isPrefixChars "amp;".data rest then '&' :: unescapeHtmlAux fuel (rest.drop 4)
      else if isPrefixChars "lt;".data rest then '<' :: unescapeHtmlAux fuel (rest.drop 3)
      else if isPrefixChars "gt;".data rest then '>' :: unescapeHtmlAux fuel (rest.drop 3)
      else if isPrefixChars "quot;".data rest then
        Char.ofNat 34 :: unescapeHtmlAux fuel (rest.drop 5)
      else if isPrefixChars "#39;".data rest then
        Char.ofNat 39 :: unescapeHtmlAux fuel (rest.drop 4)
      else if isPrefixChars "apos;".data rest then
        Char.ofNat 39 :: unescapeHtmlAux fuel (rest.drop 5)
      else '&' :: unescapeHtmlAux fuel rest
    else c :: unescapeHtmlAux fuel rest

/-- Entity-unescape a character list (model of `html.unescape`,
src/fetch_rss.py line 156). -/
def unescapeHtml (cs : List Char) : List Char := unescapeHtmlAux cs.length cs

/-- The substring filter of `ImageExtractor.handle_starttag`
(src/fetch_rss.py line 93). -/
def imgFilterPats : List String := ["1x1", "pixel", "tracker", "headshot", "portrait", "person"]

/-- The acceptance test of `ImageExtractor.handle_starttag` (src/fetch_rss.py
lines 92-94): a truthy `src` not containing a filtered substring and not
ending in `.gif`. -/
def imgSrcOk (src : String) : Bool :=
  decide (src ≠ "") &&
  !(imgFilterPats.any (fun p => isSubstrChars p.data (src.data.map Char.toLower))) &&
  !(pyEndsWith src ".gif")

/-- Character allowed in an HTML attribute name (the html.parser tokenizer
stops a name at whitespace, `=`, `>` or `/`). -/
def attrNameChar (c : Char) : Bool :=
  !(isWsChar c) && decide (c ≠ '=') && decide (c ≠ '>') && decide (c ≠ '/')

/-- Parse one attribute value after `=`: a quoted value runs to the matching
quote, an unquoted one to the next whitespace or `>`.  Returns the value and
the rest of the input. -/
def parseAttrValue : List Char → (List Char × List Char)
  | [] => ([], [])
  | c :: cs =>
    if FetchPy.isQuoteChar c then
      (cs.takeWhile (fun d => decide (d ≠ c)),
        (cs.dropWhile (fun d => decide (d ≠ c))).drop 1)
    else
      ((c :: cs).takeWhile (fun d => !(isWsChar d) && decide (d ≠ '>')),
        (c :: cs).dropWhile (fun d => !(isWsChar d) && decide (d ≠ '>')))

/-- Parse the attribute list of a start tag up to the closing `>`, lowercasing
attribute names as html.parser does.  Fuelled: every step consumes at least
one character. -/
def parseAttrs : Nat → List Char → List (String × String)
  | 0, _ => []
  | _, [] => []
  | fuel + 1, c :: cs =>
    if c = '>' then []
    else if isWsChar c || decide (c = '/') then parseAttrs fuel cs
    else
      match (c :: cs).dropWhile attrNameChar with
      | '=' :: rest2 =>
        let nv := parseAttrValue rest2
        (String.mk (((c :: cs).takeWhile attrNameChar).map Char.toLower),
          String.mk nv.1) :: parseAttrs fuel nv.2
      | rest =>
        (String.mk (((c :: cs).takeWhile attrNameChar).map Char.toLower),
          String.mk []) :: parseAttrs fuel rest

/-- Model of `dict(attrs)[k]`: with duplicate attribute names the last value
wins. -/
def dictLookup (attrs : List (String × String)) (k : String) : Option String :=
  match attrs.reverse.find? (fun p => decide (p.1 = k)) with
  | some p => some p.2
  | none => none

/-- Scan the document for `<img ...>` start tags and collect the `src`
attributes accepted by the `ImageExtractor` filter, in document order
(model of the `HTMLParser` feed of src/fetch_rss.py lines 80-95). -/
def collectImgSrcs : Nat → List Char → List String
  | 0, _ => []
  | _, [] => []
  | fuel + 1, c :: cs =>
    match FetchPy.matchCI "<img".data (c :: cs) with
    | some rest =>
      match rest with
      | [] => collectImgSrcs fuel cs
      | d :: _ =>
        if isWsChar d || decide (d = '>') || decide (d = '/') then
          (match dictLookup (parseAttrs rest.length rest) "src" with
           | some src => if imgSrcOk src then [src] else []
           | none => []) ++ collectImgSrcs fuel cs
        else collectImgSrcs fuel cs
    | none => collectImgSrcs fuel cs

/-- Model of `extract_image_from_html` (src/fetch_rss.py lines 152-161):
unescape the HTML, run the `ImageExtractor` and return the first collected
image, or `None`. -/
def extract_image_from_html (html : String) : Option String :=
  match collectImgSrcs (unescapeHtml html.data).length (unescapeHtml html.data) with
  | [] => none
  | src :: _ => some src

/-- A `media:content` element as consumed by `extract_image` (src/fetch_rss.py
lines 123-126): its `url` attribute (`""` when absent) and optional `medium`
attribute. -/
structure MediaContent where
  url : String
  medium : Option String
deriving DecidableEq

/-- An `enclosure` element (src/fetch_rss.py lines 129-133): `url` and `type`
attributes, `""` when absent. -/
structure RssEnclosure where
  url : String
  type : String
deriving DecidableEq

/-- Raw RSS `<item>` element as consumed by `extract_image`:
`thumbnailUrl` is the `url` attribute of the first `media:thumbnail` child
(`some ""` when the element exists without the attribute, `none` when there
is no such element); `contentEncoded` is the nonempty text of the
`content:encoded` child (`none` when absent or empty); `description` is the
text of the `description` child (`""` when absent). -/
structure RssXmlItem where
  thumbnailUrl : Option String
  mediaContents : List MediaContent
  enclosure : Option RssEnclosure
  contentEncoded : Option String
  description : String
deriving DecidableEq

/-- Model of `extract_image` (src/fetch_rss.py lines 112-150): try the
`media:thumbnail` url, the first image-`medium` `media:content`, an image
enclosure, images inside `content:encoded`, images inside the description —
each gated by `is_valid_image` — and otherwise return the category-specific
fallback image (or `assets/fallback.jpg` for unknown categories). -/
def extract_image (it : RssXmlItem) (category : String) : String :=
  let step5 : String :=
    if it.description ≠ "" then
      match extract_image_from_html it.description with
      | some img => if is_valid_image img then img else fallbackFor category
      | none => fallbackFor category
    else fallbackFor category
  let step4 : String :=
    match it.contentEncoded with
    | some text =>
      match extract_image_from_html text with
      | some img => if is_valid_image img then img else step5
      | none => step5
    | none => step5
  let step3 : String :=
    match it.enclosure with
    | some enc =>
      if enc.url ≠ "" ∧ pyStartsWith enc.type "image/" = true ∧ is_valid_image enc.url = true
      then enc.url else step4
    | none => step4
  let step2 : String :=
    match it.mediaContents.find?
        (fun m => decide (m.url ≠ "") && decide (m.medium = some "image") &&
          is_valid_image m.url) with
    | some m => m.url
    | none => step3
  match it.thumbnailUrl with
  | some u => if u ≠ "" ∧ is_valid_image u = true then u else step2
  | none => step2

/-! ## Merge and dedup of `fetch_all_feeds` (src/fetch_rss.py lines 340-392) -/

/-- The dedup loop of `fetch_all_feeds` (src/fetch_rss.py lines 381-387):
keep the first occurrence of every guid (no emptiness check here). -/
def dedupKeepFirst (seen : List String) : List RItem → List RItem
  | [] => []
  | it :: rest =>
    if containsStr seen it.guid = true then dedupKeepFirst seen rest
    else it :: dedupKeepFirst (it.guid :: seen) rest

/-- Model of the merge portion of `fetch_all_feeds` (src/fetch_rss.py lines
346-387): collect the freshly parsed items of each feed, keep only those
whose guid is not already in the existing dataset (`existing_guids`,
line 348/371), concatenate the existing items **first** followed by the new
ones (line 378), and deduplicate keeping the first occurrence per guid. -/
def mergeRuns (existing_news : List RItem) (fetched : List (List RItem)) : List RItem :=
  let existing_guids := existing_news.map (fun it => it.guid)
  let all_items :=
    (fetched.map (fun items =>
      items.filter (fun it => !(containsStr existing_guids it.guid)))).flatten
  dedupKeepFirst [] (existing_news ++ all_items)

theorem dedupKeepFirst_subset (l : List RItem) :
    ∀ (seen : List String) (x : RItem), x ∈ dedupKeepFirst seen l → x ∈ l := by
  induction l with
  | nil => intro seen x hx; simp [dedupKeepFirst] at hx
  | cons it rest ih =>
    intro seen x hx
    by_cases h : containsStr seen it.guid = true
    · rw [dedupKeepFirst, if_pos h] at hx
      exact List.mem_cons_of_mem _ (ih _ x hx)
    · rw [dedupKeepFirst, if_neg h] at hx
      rcases List.mem_cons.mp hx with h1 | h1
      · exact h1 ▸ List.mem_cons_self _ _
      · exact List.mem_cons_of_mem _ (ih _ x h1)

theorem dedupKeepFirst_count_zero (l : List RItem) :
    ∀ (seen : List String) (g : String), g ∈ seen →
      (dedupKeepFirst seen l).countP (fun x => decide (x.guid = g)) = 0 := by
  induction l with
  | nil => intro seen g _; simp [dedupKeepFirst]
  | cons it rest ih =>
    intro seen g hg
    by_cases h : containsStr seen it.guid = true
    · rw [dedupKeepFirst, if_pos h]
      exact ih _ g hg
    · rw [dedupKeepFirst, if_neg h]
      have hne : it.guid ≠ g := by
        intro he
        exact h ((containsStr_iff _ _).mpr (he ▸ hg))
      rw [List.countP_cons]
      simp only [decide_eq_true_eq, hne, if_false]
      exact ih _ g (List.mem_cons_of_mem _ hg)

theorem dedupKeepFirst_count_one (l : List RItem) :
    ∀ (seen : List String) (g : String), ¬ g ∈ seen →
      g ∈ l.map (fun x => x.guid) →
      (dedupKeepFirst seen l).countP (fun x => decide (x.guid = g)) = 1 := by
  induction l with
  | nil => intro seen g _ hmem; simp at hmem
  | cons it rest ih =>
    intro seen g hseen hmem
    have hmem2 : g = it.guid ∨ ∃ a ∈ rest, a.guid = g := by simpa using hmem
    by_cases h : containsStr seen it.guid = true
    · rw [dedupKeepFirst, if_pos h]
      have hne : it.guid ≠ g := by
        intro he
        exact hseen (he ▸ (containsStr_iff _ _).mp h)
      rcases hmem2 with h1 | h1
      · exact absurd h1.symm hne
      · exact ih _ g hseen (List.mem_map.mpr h1)
    · rw [dedupKeepFirst, if_neg h, List.countP_cons]
      by_cases hig : it.guid = g
      · have h0 : (dedupKeepFirst (it.guid :: seen) rest).countP
            (fun x => decide (x.guid = g)) = 0 :=
          dedupKeepFirst_count_zero rest (it.guid :: seen) g
            (by rw [hig]; exact List.mem_cons_self _ _)
        rw [h0]
        simp [hig]
      · rcases hmem2 with h1 | h1
        · exact absurd h1.symm hig
        · have hrec := ih (it.guid :: seen) g (by
            intro hmem3
            rcases List.mem_cons.mp hmem3 with h2 | h2
            · exact hig h2.symm
            · exact hseen h2) (List.mem_map.mpr h1)
          rw [hrec]
          simp [hig]

theorem mem_filtered_new (existing_guids : List String)
    (fetched : List (List RItem)) (x : RItem)
    (hx : x ∈ (fetched.map (fun items =>
      items.filter (fun it => !(containsStr existing_guids it.guid)))).flatten) :
    containsStr existing_guids x.guid = false := by
  obtain ⟨l, hl, hxl⟩ := List.mem_flatten.mp hx
  obtain ⟨items, _, heq⟩ := List.mem_map.mp hl
  rw [← heq] at hxl
  have := (List.mem_filter.mp hxl).2
  simpa using this

/-! ## Claim C3 -/

/-- Item of the prior published dataset with identifier `1`. -/
def oldItem : RItem :=
  { guid := "1", title := "old title", link := "https://example.com/old",
    source := "Src", image := "https://img.example.com/old.jpg",
    category := "newsroom", timestamp := "2024-01-01T00:00:00",
    summary := "old summary" }

/-- Freshly fetched item with the same identifier `1` but different text. -/
def newItem : RItem :=
  { guid := "1", title := "new title", link := "https://example.com/new",
    source := "Src", image := "https://img.example.com/new.jpg",
    category := "newsroom", timestamp := "2024-01-02T00:00:00",
    summary := "new summary" }

/-- Counterexample for C3: with a prior dataset containing id `1` and a new
fetch also yielding id `1` with different text, the merged-deduplicated
output keeps exactly the **prior** run's version — the new one is filtered
out against `existing_guids` (src/fetch_rss.py line 371) and the merge
concatenates the existing items first (line 378) — refuting "it is the
version from the newest run". -/
theorem claim_C3_counterexample :
    mergeRuns [oldItem] [[newItem]] = [oldItem] ∧
    oldItem ≠ newItem ∧
    ¬ newItem ∈ mergeRuns [oldItem] [[newItem]] :=
  ⟨by decide, by decide, by decide⟩

/-- Claim C3 (amended): aggregation concatenates the previous run's items
before the newly fetched ones and drops fetched items whose identifier is
already present; hence for an identifier present in the prior dataset the
merged-deduplicated output contains exactly one entry with that identifier,
and it is an item of the prior dataset (the prior run's version), not the
newest run's. -/
theorem claim_C3_merge_semantics (existing_news : List RItem)
    (fetched : List (List RItem)) (g : String)
    (hg : g ∈ existing_news.map (fun x => x.guid)) :
    (mergeRuns existing_news fetched).countP (fun x => decide (x.guid = g)) = 1 ∧
    ∀ x ∈ mergeRuns existing_news fetched, x.guid = g → x ∈ existing_news := by
  constructor
  · refine dedupKeepFirst_count_one _ [] g (by simp) ?_
    rw [List.map_append]
    exact List.mem_append_left _ hg
  · intro x hx hxg
    have hmem : x ∈ existing_news ++ _ := dedupKeepFirst_subset _ [] x hx
    rcases List.mem_append.mp hmem with h1 | h1
    · exact h1
    · exfalso
      have hfalse := mem_filtered_new (existing_news.map (fun it => it.guid)) fetched x h1
      have htrue : containsStr (existing_news.map (fun it => it.guid)) x.guid = true :=
        (containsStr_iff _ _).mpr (hxg ▸ hg)
      rw [hfalse] at htrue
      exact Bool.false_ne_true htrue

/-- Witness for C3 (amended): applied to the concrete one-item prior dataset
and fetch. -/
theorem claim_C3_merge_semantics_witness :
    (mergeRuns [oldItem] [[newItem]]).countP (fun x => decide (x.guid = "1")) = 1 ∧
    oldItem ∈ ([oldItem] : List RItem) :=
  ⟨(claim_C3_merge_semantics [oldItem] [[newItem]] "1" (by decide)).1,
    (claim_C3_merge_semantics [oldItem] [[newItem]] "1" (by decide)).2 oldItem
      (by decide) rfl⟩

/-! ## Claim C5 (fetch_rss.py side) -/

/-- RSS item with no image candidate at all. -/
def bareRssItem : RssXmlItem :=
  { thumbnailUrl := none, mediaContents := [], enclosure := none,
    contentEncoded := none, description := "" }

/-- Counterexample for C5: in the fetch_rss.py pipeline, when no image
candidate survives, `extract_image` does **not** produce a null image — it
substitutes the category-specific fallback image URL (src/fetch_rss.py lines
149-150), here the `newsroom` Unsplash image. -/
theorem claim_C5_counterexample :
    extract_image bareRssItem "newsroom" =
      "https://images.unsplash.com/photo-1504711434969-e33886168f5c?w=800&q=80" ∧
    ("newsroom",
      "https://images.unsplash.com/photo-1504711434969-e33886168f5c?w=800&q=80")
      ∈ CATEGORY_FALLBACKS ∧
    "https://images.unsplash.com/photo-1504711434969-e33886168f5c?w=800&q=80" ≠ "" :=
  ⟨by decide, by decide, by decide⟩

end FetchRss
